import Mathlib

/-
Shallow embedding of the BLE attribute request engine of eblot/tde-nrf52-bleadv
(src/adv_ble.c), restricted to the parts the verified properties speak about:
the write/read authorize paths, the deferred completion slot, the error
recorder, disconnect handling and the background worker watchdog.

Calls into the Nordic SoftDevice (sd_ble_gatts_rw_authorize_reply,
sd_ble_gap_disconnect, NVIC_SystemReset) are modelled as an ordered list of
emitted actions; trace output (MSGV) is ignored.  The two process-wide C
globals `_adv_ble` / `_adv_ble_var` and `_adv_ble_worker_engine` are bundled
into one explicit state record that every operation threads.
-/

namespace AdvBle

/-! Error codes from adv_errors.h (used negated as return codes). -/

def PE_NO_ERROR : Int := 0
def PE_DEFERRED : Int := 1
def PE_ABORT : Int := 2
def PE_INTERNAL : Int := 3
def PE_NOT_SUPPORTED : Int := 7
def PE_OVERFLOW : Int := 8
def PE_INVALID_REQUEST : Int := 9
def PE_INVALID_UUID : Int := 10
def PE_READ_ONLY : Int := 11
def PE_INVALID_COMMAND : Int := 17
def PE_BUSY : Int := 19

/-! Constants from adv_ble.c and the Nordic SDK headers. -/

def ADV_CHAR_UUID_BASE : Nat := 0x1001
def BLE_UUID_TYPE_VENDOR_BEGIN : Nat := 2
def BLE_CONN_HANDLE_INVALID : Nat := 0xFFFF
def BLE_GATT_STATUS_SUCCESS : Nat := 0x0000
def BLE_GATT_STATUS_ATTERR_READ_NOT_PERMITTED : Nat := 0x0102
def BLE_GATT_STATUS_ATTERR_WRITE_NOT_PERMITTED : Nat := 0x0103
def BLE_GATT_STATUS_ATTERR_UNLIKELY_ERROR : Nat := 0x010E
/-- BLE_GATT_STATUS_ATTERR_APP_BEGIN + 2, the reply for unsupported features. -/
def APP_FEATURE_NOT_SUPPORTED : Nat := 0x01A0 + 2
def ADV_BLE_WORKER_PACE_S : Nat := 5
def ADV_BLE_STALL_DELAY_S : Nat := 120
/-- sizeof(_adv_ble_var.pv_transient). -/
def TRANSIENT_SIZE : Nat := 16
/-- ADV_ERROR, index of the error-reporting attribute in the registry. -/
def ADV_ERROR : Nat := 0

/-- Modulus of the C `unsigned int` arithmetic of the worker engine. -/
def UINT_MOD : Nat := 4294967296

/-- C unsigned 32-bit subtraction, as used on the worker engine clock. -/
def usub32 (a b : Nat) : Nat := ((a % UINT_MOD) + UINT_MOD - (b % UINT_MOD)) % UINT_MOD

/-- C cast to int8_t, as applied to the stored errno. -/
def int8cast (i : Int) : Int := (i + 128).emod 256 - 128

/-- C cast to uint8_t, as applied to the stored attribute index. -/
def uint8cast (n : Nat) : Nat := n % 256

/-- The `op` field of a ble_gatts_evt_write_t. -/
inductive WriteOp
  | invalid
  | writeReq
  | writeCmd
  | signWriteCmd
  | prepWriteReq
  | execWriteReqCancel
  | execWriteReqNow
deriving DecidableEq

/-- A ble_uuid_t: 16-bit uuid plus type discriminator. -/
structure Uuid where
  uuid : Nat
  type : Nat
deriving DecidableEq

/--
Value of the `ae_data` pointer of the pending-operation record: either a
pointer into the stack-owned buffer of the incoming write event (carrying the
bytes that buffer holds) or a pointer to `_adv_ble_var.pv_transient`.
-/
inductive DataPtr
  | orig (bytes : List Nat)
  | transient
deriving DecidableEq

/-- struct adv_ble_attr_event: the single pending-operation record. -/
structure AttrEvent where
  ae_data : Option DataPtr
  ae_length : Nat
  ae_offset : Nat
  /-- ae_attr pointer, as an index into bp_attributes. -/
  ae_attr : Option Nat
deriving DecidableEq

/-- The all-NULL/zero pending-operation record (memset / initializer). -/
def emptyAttrEvent : AttrEvent :=
  { ae_data := none, ae_length := 0, ae_offset := 0, ae_attr := none }

/-- struct pa_error_desc, the storage of the ADV_ERROR attribute. -/
structure ErrorDesc where
  pe_errno : Int
  pe_attr : Nat
  pe_state : Nat
  pe_comp : Nat
  pe_payload : Nat
deriving DecidableEq

/--
struct adv_ble_attribute, restricted to the fields the request engine reads
or writes.  The writer callback receives the raw payload bytes and the
length and yields the adv_errors return code.  The reader callback receives
the attribute meaningful length (which the engine has just reset) and yields
the return code together with the meaningful length it leaves behind, the
only attribute mutation of a reader the engine observes.
-/
structure Attribute where
  pa_size : Nat
  pa_varsize : Bool
  pa_length : Nat
  pa_writer : Option (List Nat → Nat → Int)
  pa_reader : Option (Nat → Int × Nat)

/-- Attribute with no storage and no callbacks, used for out-of-range reads. -/
def defaultAttribute : Attribute :=
  { pa_size := 0, pa_varsize := false, pa_length := 0,
    pa_writer := none, pa_reader := none }

/-- struct adv_ble_worker_engine (timer API handles omitted). -/
structure WorkerEngine where
  we_enable : Bool
  we_running : Bool
  we_time : Nat
  we_last_time : Nat
  we_worker_ix : Nat
deriving DecidableEq

/--
The process-wide engine state: struct adv_ble (bp_attributes,
bp_conn_handle, bp_attr_event, bp_entering_sleep, bp_reboot), the attribute
storage _adv_ble_var (pv_error, pv_transient) and _adv_ble_worker_engine.
-/
structure AdvBleState where
  bp_attributes : List Attribute
  bp_conn_handle : Nat
  bp_attr_event : AttrEvent
  bp_entering_sleep : Bool
  bp_reboot : Bool
  pv_error : ErrorDesc
  pv_transient : List Nat
  worker : WorkerEngine

/-- Dereference an attribute pointer (index into bp_attributes). -/
def AdvBleState.attr (st : AdvBleState) (ix : Nat) : Attribute :=
  (st.bp_attributes.get? ix).getD defaultAttribute

/-- Store through an attribute pointer into its pa_length field. -/
def setAttrLength (st : AdvBleState) (ix : Nat) (len : Nat) : AdvBleState :=
  match st.bp_attributes.get? ix with
  | some a => { st with bp_attributes := st.bp_attributes.set ix { a with pa_length := len } }
  | none => st

/-- ble_gatts_authorize_params_t of a write authorize reply. -/
structure WriteAuthReply where
  gatt_status : Nat
  update : Bool
  offset : Nat
  len : Nat
  p_data : Option DataPtr
deriving DecidableEq

/--
ble_gatts_authorize_params_t of a read authorize reply; on success p_data
points at the storage of the attribute under operation, modelled by its
index.
-/
structure ReadAuthReply where
  gatt_status : Nat
  update : Bool
  offset : Nat
  len : Nat
  p_data_attr : Option Nat
deriving DecidableEq

/--
Externally visible calls the engine makes, in order: authorize replies
(sd_ble_gatts_rw_authorize_reply), disconnect requests
(sd_ble_gap_disconnect on the given handle) and a system reset
(NVIC_SystemReset, emitted nowhere by the BLE engine code).
-/
inductive Action
  | writeReply (r : WriteAuthReply)
  | readReply (r : ReadAuthReply)
  | disconnectReq (handle : Nat)
  | systemReset
deriving DecidableEq

/-- ble_gatts_evt_write_t, restricted to the fields the engine reads. -/
structure WriteEvt where
  uuid : Uuid
  op : WriteOp
  offset : Nat
  len : Nat
  data : List Nat
deriving DecidableEq

/-- ble_gatts_evt_read_t, restricted to the fields the engine reads. -/
structure ReadEvt where
  uuid : Uuid
  offset : Nat
deriving DecidableEq

/-- _adv_ble_attribute_char: pointer-range check, ADV_COUNT on invalid. -/
def _adv_ble_attribute_char (st : AdvBleState) (attrOpt : Option Nat) : Nat :=
  match attrOpt with
  | none => st.bp_attributes.length
  | some ix => if ix < st.bp_attributes.length then ix else st.bp_attributes.length

/--
_adv_ble_set_error_on_attr: clamp an invalid attribute index to ADV_ERROR
and store the error code and index into the error record (through the
ADV_ERROR attribute storage), with the C narrowing casts.
-/
def _adv_ble_set_error_on_attr (st : AdvBleState) (errno : Int) (pa_char : Nat) :
    AdvBleState :=
  let pa_char := if pa_char ≥ st.bp_attributes.length then ADV_ERROR else pa_char
  { st with pv_error := { st.pv_error with
      pe_errno := int8cast errno, pe_attr := uint8cast pa_char } }

/--
_adv_ble_retrieve_attribute: resolve a PowerAdvertiser attribute from its
uuid, recording PE_INVALID_UUID against the error attribute on failure.
-/
def _adv_ble_retrieve_attribute (st : AdvBleState) (uuid : Uuid) :
    Option Nat × AdvBleState :=
  if uuid.uuid < ADV_CHAR_UUID_BASE ∨ uuid.type ≠ BLE_UUID_TYPE_VENDOR_BEGIN then
    (none, _adv_ble_set_error_on_attr st (-PE_INVALID_UUID) ADV_ERROR)
  else
    let attr_ix := uuid.uuid - ADV_CHAR_UUID_BASE
    if attr_ix ≥ st.bp_attributes.length then
      (none, _adv_ble_set_error_on_attr st (-PE_INVALID_UUID) ADV_ERROR)
    else
      (some attr_ix, st)

/-- _adv_ble_worker_feed: refresh the stall watchdog activity timestamp. -/
def _adv_ble_worker_feed (st : AdvBleState) : AdvBleState :=
  { st with worker := { st.worker with we_last_time := st.worker.we_time } }

/--
_adv_ble_write_attribute from the writer-presence check onwards
(adv_ble.c:1398-1450).  Returns the adv_errors return code, the new state
and whether the writer callback was invoked.
-/
def _adv_ble_write_attribute_run (st : AdvBleState) (ix : Nat) (wr : WriteEvt) :
    Int × AdvBleState × Bool :=
  match (st.attr ix).pa_writer with
  | none => (-PE_READ_ONLY, st, false)
  | some writer =>
    if st.bp_attr_event.ae_data.isSome || st.bp_attr_event.ae_attr.isSome then
      (-PE_BUSY, st, false)
    else
      let st := _adv_ble_worker_feed st
      let st := { st with bp_attr_event :=
        { ae_data := some (DataPtr.orig wr.data), ae_length := wr.len,
          ae_offset := wr.offset, ae_attr := some ix } }
      if wr.len > TRANSIENT_SIZE then
        (-PE_NOT_SUPPORTED, st, false)
      else
        let rc := writer wr.data wr.len
        if rc = PE_DEFERRED then
          if wr.len > 0 then
            ((rc, { st with
               pv_transient :=
                 wr.data.take wr.len ++ st.pv_transient.drop wr.len,
               bp_attr_event :=
                 { st.bp_attr_event with ae_data := some DataPtr.transient } },
               true) : Int × AdvBleState × Bool)
          else
            (rc, { st with bp_attr_event :=
              { st.bp_attr_event with ae_data := none, ae_length := 0 } }, true)
        else
          (rc, st, true)

/--
_adv_ble_write_attribute (adv_ble.c:1373-1451): the validation chain of a
plain immediate write, then the writer execution.
-/
def _adv_ble_write_attribute (st : AdvBleState) (ix : Nat) (wr : WriteEvt) :
    Int × AdvBleState × Bool :=
  if wr.op ≠ WriteOp.writeReq then (-PE_INVALID_COMMAND, st, false)
  else if wr.offset ≠ 0 then (-PE_NOT_SUPPORTED, st, false)
  else if (st.attr ix).pa_varsize then
    if wr.len > (st.attr ix).pa_size then (-PE_OVERFLOW, st, false)
    else _adv_ble_write_attribute_run st ix wr
  else
    if wr.len ≠ (st.attr ix).pa_size then (-PE_INVALID_REQUEST, st, false)
    else _adv_ble_write_attribute_run st ix wr

/--
_adv_ble_complete_write_req (adv_ble.c:1458-1511): map the completion code
to a write authorize reply, record client-caused errors, update the
attribute meaningful length on success and clear the pending-operation
record.
-/
def _adv_ble_complete_write_req (retcode : Int) (st : AdvBleState) :
    AdvBleState × WriteAuthReply :=
  let event := st.bp_attr_event
  let retcode :=
    if event.ae_data.isNone || event.ae_attr.isNone then -PE_INTERNAL else retcode
  let stG : AdvBleState × Nat :=
    if retcode < 0 then
      if retcode ≠ -PE_ABORT then
        (_adv_ble_set_error_on_attr st retcode (_adv_ble_attribute_char st event.ae_attr),
         BLE_GATT_STATUS_ATTERR_WRITE_NOT_PERMITTED)
      else
        (st, BLE_GATT_STATUS_ATTERR_UNLIKELY_ERROR)
    else
      (match event.ae_attr with
       | some ix => setAttrLength st ix (event.ae_length + event.ae_offset)
       | none => st,
       BLE_GATT_STATUS_SUCCESS)
  let reply : WriteAuthReply :=
    { gatt_status := stG.2,
      update := PE_NO_ERROR == retcode,
      offset := event.ae_offset,
      len := event.ae_length,
      p_data := event.ae_data }
  ({ stG.1 with bp_attr_event := emptyAttrEvent }, reply)

/--
_adv_ble_complete_read_req (adv_ble.c:1600-1666): map the completion code
to a read authorize reply, downgrading a success with no meaningful length
to an internal error, and clear the pending-operation record.
-/
def _adv_ble_complete_read_req (retcode : Int) (st : AdvBleState) :
    AdvBleState × ReadAuthReply :=
  let event := st.bp_attr_event
  let retcode := if event.ae_attr.isNone then -PE_INTERNAL else retcode
  let retcode :=
    if retcode = 0 then
      match event.ae_attr with
      | some ix => if (st.attr ix).pa_length = 0 then -PE_INTERNAL else retcode
      | none => retcode
    else retcode
  let br : AdvBleState × ReadAuthReply :=
    if retcode = 0 then
      (st,
       { gatt_status := BLE_GATT_STATUS_SUCCESS,
         update := true,
         offset := 0,
         len := match event.ae_attr with
                | some ix => (st.attr ix).pa_length
                | none => 0,
         p_data_attr := event.ae_attr })
    else
      if retcode ≠ -PE_ABORT then
        (_adv_ble_set_error_on_attr st retcode (_adv_ble_attribute_char st event.ae_attr),
         { gatt_status := BLE_GATT_STATUS_ATTERR_READ_NOT_PERMITTED,
           update := false, offset := 0, len := 0, p_data_attr := none })
      else
        (st,
         { gatt_status := BLE_GATT_STATUS_ATTERR_UNLIKELY_ERROR,
           update := false, offset := 0, len := 0, p_data_attr := none })
  ({ br.1 with bp_attr_event := emptyAttrEvent }, br.2)

/-- _adv_ble_disconnect: request link termination if a connection exists. -/
def _adv_ble_disconnect (st : AdvBleState) : List Action :=
  if st.bp_conn_handle ≠ BLE_CONN_HANDLE_INVALID then
    [Action.disconnectReq st.bp_conn_handle]
  else
    []

/--
Tail of _adv_ble_write_req after a non-deferred outcome (adv_ble.c:1354-
1361): complete the request, then trigger a disconnect when a successful
write finds the reboot flag raised.
-/
def _adv_ble_write_req_finish (rc : Int) (st : AdvBleState) :
    AdvBleState × List Action :=
  let c := _adv_ble_complete_write_req rc st
  if rc = 0 ∧ c.1.bp_reboot then
    (c.1, [Action.writeReply c.2] ++ _adv_ble_disconnect c.1)
  else
    (c.1, [Action.writeReply c.2])

/--
_adv_ble_write_req (adv_ble.c:1292-1362): reject multi-part write
sub-operations, resolve the attribute, refuse requests while entering
sleep, execute the write and complete unless deferred.
-/
def _adv_ble_write_req (st : AdvBleState) (wr : WriteEvt) :
    AdvBleState × List Action :=
  match wr.op with
  | WriteOp.prepWriteReq | WriteOp.execWriteReqNow | WriteOp.execWriteReqCancel =>
    (st, [Action.writeReply
      { gatt_status := APP_FEATURE_NOT_SUPPORTED, update := false,
        offset := 0, len := 0, p_data := none }])
  | _ =>
    let r := _adv_ble_retrieve_attribute st wr.uuid
    let st := r.2
    let rc : Int := -PE_INVALID_UUID
    let attrOpt := if st.bp_entering_sleep then none else r.1
    let rc := if st.bp_entering_sleep then -PE_ABORT else rc
    match attrOpt with
    | some ix =>
      let w := _adv_ble_write_attribute st ix wr
      if w.1 = PE_DEFERRED then
        (w.2.1, [])
      else
        _adv_ble_write_req_finish w.1 w.2.1
    | none =>
      _adv_ble_write_req_finish rc st

/--
_adv_ble_read_req (adv_ble.c:1521-1593): resolve the attribute, refuse
non-zero offsets, sleep-entry and busy states, otherwise reset the
meaningful length, run the reader if any and complete unless deferred.
-/
def _adv_ble_read_req (st : AdvBleState) (rd : ReadEvt) :
    AdvBleState × List Action :=
  let r := _adv_ble_retrieve_attribute st rd.uuid
  let st := r.2
  let rc : Int := -PE_INTERNAL
  let rc := if r.1.isNone then -PE_INVALID_UUID else rc
  let attrOpt := if rd.offset ≠ 0 then none else r.1
  let rc := if rd.offset ≠ 0 then -PE_NOT_SUPPORTED else rc
  let attrOpt := if st.bp_entering_sleep then none else attrOpt
  let rc := if st.bp_entering_sleep then -PE_ABORT else rc
  let busy := st.bp_attr_event.ae_data.isSome || st.bp_attr_event.ae_attr.isSome
  let attrOpt := if busy then none else attrOpt
  let rc := if busy then -PE_BUSY else rc
  match attrOpt with
  | some ix =>
    let st := _adv_ble_worker_feed st
    let st := { st with bp_attr_event := { st.bp_attr_event with ae_attr := some ix } }
    let st := setAttrLength st ix (if (st.attr ix).pa_varsize then 0 else (st.attr ix).pa_size)
    match (st.attr ix).pa_reader with
    | some reader =>
      let st := { st with bp_attr_event :=
        { st.bp_attr_event with ae_data := none, ae_length := 0, ae_offset := 0 } }
      let rl := reader (st.attr ix).pa_length
      let st := setAttrLength st ix rl.2
      if rl.1 = PE_DEFERRED then
        (st, [])
      else
        let c := _adv_ble_complete_read_req rl.1 st
        (c.1, [Action.readReply c.2])
    | none =>
      let c := _adv_ble_complete_read_req PE_NO_ERROR st
      (c.1, [Action.readReply c.2])
  | none =>
    let c := _adv_ble_complete_read_req rc st
    (c.1, [Action.readReply c.2])

/-- _adv_ble_handle_disconnect: memset of the pending-operation record. -/
def _adv_ble_handle_disconnect (st : AdvBleState) : AdvBleState :=
  { st with bp_attr_event := emptyAttrEvent }

/--
Handling of BLE_GAP_EVT_DISCONNECTED by _adv_ble_evt_handler
(adv_ble.c:1037-1055 and 1085-1089): on an already invalid connection
handle the early dispatch branch only cleans the record; otherwise the
handle is invalidated and the record cleaned.  The handler makes no
external call (in particular no system reset).
-/
def _adv_ble_evt_disconnected (st : AdvBleState) : AdvBleState × List Action :=
  if st.bp_conn_handle = BLE_CONN_HANDLE_INVALID then
    (_adv_ble_handle_disconnect st, [])
  else
    (_adv_ble_handle_disconnect { st with bp_conn_handle := BLE_CONN_HANDLE_INVALID }, [])

/-- _adv_ble_worker_run_next with no configured workers: clear we_running. -/
def _adv_ble_worker_run_next (we : WorkerEngine) : WorkerEngine :=
  { we with we_running := false }

/--
_adv_ble_worker_timer_cb (adv_ble.c:1852-1887): advance the engine clock;
while workers are disabled run the stalled-connection watchdog, otherwise
schedule a non-reentrant worker session.
-/
def _adv_ble_worker_timer_cb (st : AdvBleState) : AdvBleState × List Action :=
  let we := { st.worker with
    we_time := (st.worker.we_time + ADV_BLE_WORKER_PACE_S) % UINT_MOD }
  let st := { st with worker := we }
  if ! we.we_enable then
    if usub32 we.we_time we.we_last_time > ADV_BLE_STALL_DELAY_S then
      if st.bp_conn_handle ≠ BLE_CONN_HANDLE_INVALID then
        (st, _adv_ble_disconnect st)
      else
        (st, [])
    else
      (st, [])
  else if we.we_running then
    (st, [])
  else
    let we := { we with we_running := true, we_worker_ix := 0 }
    ({ st with worker := _adv_ble_worker_run_next we }, [])


/-! Concrete fixtures used by counterexamples, failing-input evaluations and
witnesses.  The registry holds the error attribute at index 0 (as in the
source) plus test attributes exercising the writer paths. -/

/-- The ADV_ERROR attribute: 8-byte fixed storage, no callbacks. -/
def fixErrAttr : Attribute :=
  { pa_size := 8, pa_varsize := false, pa_length := 8,
    pa_writer := none, pa_reader := none }

/-- A fixed-size writable attribute whose writer commits synchronously. -/
def fixWriteAttr : Attribute :=
  { pa_size := 2, pa_varsize := false, pa_length := 0,
    pa_writer := some (fun _ _ => PE_NO_ERROR), pa_reader := none }

/-- A variable-size writable attribute whose writer defers completion. -/
def fixDeferAttr : Attribute :=
  { pa_size := 8, pa_varsize := true, pa_length := 0,
    pa_writer := some (fun _ _ => PE_DEFERRED), pa_reader := none }

/-- A pristine error record. -/
def cleanError : ErrorDesc :=
  { pe_errno := 0, pe_attr := 0, pe_state := 0, pe_comp := 0, pe_payload := 0 }

/-- Worker engine shortly after a connection became active. -/
def fixWorker : WorkerEngine :=
  { we_enable := false, we_running := false, we_time := 200,
    we_last_time := 0, we_worker_ix := 0 }

/-- A connected, idle engine state. -/
def baseState : AdvBleState :=
  { bp_attributes := [fixErrAttr, fixWriteAttr, fixDeferAttr],
    bp_conn_handle := 5,
    bp_attr_event := emptyAttrEvent,
    bp_entering_sleep := false,
    bp_reboot := false,
    pv_error := cleanError,
    pv_transient := List.replicate 16 0,
    worker := fixWorker }

/-- A plain immediate write of two bytes to the attribute at index 1. -/
def fixWr : WriteEvt :=
  { uuid := { uuid := ADV_CHAR_UUID_BASE + 1, type := BLE_UUID_TYPE_VENDOR_BEGIN },
    op := WriteOp.writeReq, offset := 0, len := 2, data := [1, 2] }

/-- A read of the error attribute at index 0. -/
def fixRd : ReadEvt :=
  { uuid := { uuid := ADV_CHAR_UUID_BASE, type := BLE_UUID_TYPE_VENDOR_BEGIN },
    offset := 0 }

/-- The engine while the entering-sleep flag is raised (pending slot free). -/
def sleepState : AdvBleState := { baseState with bp_entering_sleep := true }

/-- The engine while a deferred write to attribute 2 is still in flight. -/
def busyState : AdvBleState :=
  { baseState with
    bp_attr_event := { ae_data := some DataPtr.transient, ae_length := 5,
                       ae_offset := 0, ae_attr := some 2 } }

/-- The engine with a reboot scheduled by application logic. -/
def rebootState : AdvBleState := { baseState with bp_reboot := true }

/-- The engine disconnected (invalid handle), workers still disabled. -/
def idleState : AdvBleState :=
  { baseState with bp_conn_handle := BLE_CONN_HANDLE_INVALID }

/-- Claim C3: `_adv_ble_complete_write_req` and `_adv_ble_complete_read_req`
clear the pending-operation record (data pointer, length, offset and
attribute back-reference reset to the empty record) before returning, for
every completion code and every prior state, including the downgraded
`Internal` cases. -/
theorem claim_C3_completion_clears (retcode : Int) (st : AdvBleState) :
    (_adv_ble_complete_write_req retcode st).1.bp_attr_event = emptyAttrEvent ∧
    (_adv_ble_complete_read_req retcode st).1.bp_attr_event = emptyAttrEvent :=
  ⟨rfl, rfl⟩

/-- Claim C7: handling a disconnection notification clears the
pending-operation record and the connection handle whatever the prior
state, and a further disconnection notification on an already disconnected
engine changes nothing and emits nothing. -/
theorem claim_C7_disconnect_clears_idempotent (st : AdvBleState) :
    (_adv_ble_evt_disconnected st).1.bp_attr_event = emptyAttrEvent ∧
    (_adv_ble_evt_disconnected st).1.bp_conn_handle = BLE_CONN_HANDLE_INVALID ∧
    _adv_ble_evt_disconnected (_adv_ble_evt_disconnected st).1 =
      ((_adv_ble_evt_disconnected st).1, []) := by
  unfold _adv_ble_evt_disconnected _adv_ble_handle_disconnect
  split <;> simp_all

/-- The tail of the write request always leaves the state of the completion
call, whichever reboot branch is taken. -/
theorem write_req_finish_state (rc : Int) (st : AdvBleState) :
    (_adv_ble_write_req_finish rc st).1 = (_adv_ble_complete_write_req rc st).1 := by
  unfold _adv_ble_write_req_finish
  dsimp only
  split <;> rfl

/-- Claim C5: a plain immediate write request is rejected before the writer
callback is consulted when its offset is non-zero (NotSupported), when the
attribute is fixed-size and the length differs from the size
(InvalidRequest), or when the attribute is variable-size and the length
exceeds the maximum (Overflow); in all three cases the state is untouched
and the writer is not invoked. -/
theorem claim_C5_write_validation (st : AdvBleState) (ix : Nat) (wr : WriteEvt)
    (hop : wr.op = WriteOp.writeReq) :
    (wr.offset ≠ 0 →
      _adv_ble_write_attribute st ix wr = (-PE_NOT_SUPPORTED, st, false)) ∧
    (wr.offset = 0 → (st.attr ix).pa_varsize = false →
      wr.len ≠ (st.attr ix).pa_size →
      _adv_ble_write_attribute st ix wr = (-PE_INVALID_REQUEST, st, false)) ∧
    (wr.offset = 0 → (st.attr ix).pa_varsize = true →
      wr.len > (st.attr ix).pa_size →
      _adv_ble_write_attribute st ix wr = (-PE_OVERFLOW, st, false)) := by
  refine ⟨fun hoff => ?_, fun hoff hvs hlen => ?_, fun hoff hvs hlen => ?_⟩
  · simp [_adv_ble_write_attribute, hop, hoff]
  · simp [_adv_ble_write_attribute, hop, hoff, hvs, hlen]
  · simp [_adv_ble_write_attribute, hop, hoff, hvs, hlen]

/-- Witness for C5: offset 3 on the fixed-size attribute 1, length 3 on the
size-2 fixed attribute 1, length 20 on the max-8 variable attribute 2. -/
theorem claim_C5_witness :
    _adv_ble_write_attribute baseState 1 { fixWr with offset := 3 } =
      (-PE_NOT_SUPPORTED, baseState, false) ∧
    _adv_ble_write_attribute baseState 1 { fixWr with len := 3, data := [1, 2, 3] } =
      (-PE_INVALID_REQUEST, baseState, false) ∧
    _adv_ble_write_attribute baseState 2
        { fixWr with uuid := { uuid := ADV_CHAR_UUID_BASE + 2, type := BLE_UUID_TYPE_VENDOR_BEGIN },
                     len := 20, data := List.replicate 20 1 } =
      (-PE_OVERFLOW, baseState, false) :=
  ⟨(claim_C5_write_validation baseState 1 _ rfl).1 (by decide),
   (claim_C5_write_validation baseState 1 _ rfl).2.1 rfl (by decide) (by decide),
   (claim_C5_write_validation baseState 2 _ rfl).2.2 rfl (by decide) (by decide)⟩

/-- Claim C6: completing a read with a success code while the attribute
under operation has meaningful length 0 downgrades the result to Internal,
records it in the error record against that attribute, and replies with the
read-not-permitted status instead of success. -/
theorem claim_C6_zero_length_read_downgrade (st : AdvBleState) (ix : Nat)
    (hattr : st.bp_attr_event.ae_attr = some ix)
    (hix : ix < st.bp_attributes.length)
    (hlen : (st.attr ix).pa_length = 0) :
    (_adv_ble_complete_read_req PE_NO_ERROR st).2 =
      { gatt_status := BLE_GATT_STATUS_ATTERR_READ_NOT_PERMITTED,
        update := false, offset := 0, len := 0, p_data_attr := none } ∧
    (_adv_ble_complete_read_req PE_NO_ERROR st).1.pv_error.pe_errno = -PE_INTERNAL ∧
    (_adv_ble_complete_read_req PE_NO_ERROR st).1.pv_error.pe_attr = ix % 256 := by
  unfold _adv_ble_complete_read_req _adv_ble_set_error_on_attr _adv_ble_attribute_char
  simp [hattr, hlen, hix, Nat.not_le.mpr hix, PE_NO_ERROR, PE_INTERNAL, PE_ABORT,
        int8cast, uint8cast]
  decide

/-- Witness for C6: pending read on the variable-size attribute 2 whose
meaningful length is still 0. -/
theorem claim_C6_witness :
    (_adv_ble_complete_read_req PE_NO_ERROR
        { baseState with bp_attr_event := { emptyAttrEvent with ae_attr := some 2 } }).2 =
      { gatt_status := BLE_GATT_STATUS_ATTERR_READ_NOT_PERMITTED,
        update := false, offset := 0, len := 0, p_data_attr := none } ∧
    (_adv_ble_complete_read_req PE_NO_ERROR
        { baseState with bp_attr_event := { emptyAttrEvent with ae_attr := some 2 } }).1.pv_error.pe_errno =
      -PE_INTERNAL ∧
    (_adv_ble_complete_read_req PE_NO_ERROR
        { baseState with bp_attr_event := { emptyAttrEvent with ae_attr := some 2 } }).1.pv_error.pe_attr =
      2 % 256 :=
  claim_C6_zero_length_read_downgrade _ 2 rfl (by decide) (by decide)

/-- Claim C1: code behaviour at the failing input.  A write (and a read)
authorize request arriving while the entering-sleep flag is set and no
operation is pending is answered with the write/read-not-permitted status,
not the distinguished unlikely-error (Abort) status, and PE_INTERNAL is
recorded in the error record, which was previously clean: the nil-event
guard of the completion routines overwrites the -PE_ABORT marker before the
dedicated Abort branch can see it. -/
theorem claim_C1_sleep_reply_and_error_record :
    (_adv_ble_write_req sleepState fixWr).2 =
      [Action.writeReply { gatt_status := BLE_GATT_STATUS_ATTERR_WRITE_NOT_PERMITTED,
                           update := false, offset := 0, len := 0, p_data := none }] ∧
    (_adv_ble_write_req sleepState fixWr).1.pv_error.pe_errno = -PE_INTERNAL ∧
    (_adv_ble_read_req sleepState fixRd).2 =
      [Action.readReply { gatt_status := BLE_GATT_STATUS_ATTERR_READ_NOT_PERMITTED,
                          update := false, offset := 0, len := 0, p_data_attr := none }] ∧
    (_adv_ble_read_req sleepState fixRd).1.pv_error.pe_errno = -PE_INTERNAL ∧
    sleepState.pv_error.pe_errno = 0 ∧
    sleepState.bp_entering_sleep = true :=
  ⟨rfl, rfl, rfl, rfl, rfl, rfl⟩

/-- Counterexample for C2, refuting both universal parts of the claim at
concrete inputs.  First divergence: a valid write request handled while a
deferred operation is still pending is rejected with Busy (recorded in the
error record), but the previously occupied pending-operation record is not
left unchanged — the completion call that sends the rejection clears it.
Second divergence: a write request of invalid length (3 against the
fixed size 2 of attribute 1) arriving while the record is occupied does not
fail with Busy at all: the length validation precedes the busy check, so it
fails with InvalidRequest, which is also what the error record receives. -/
theorem claim_C2_counterexample :
    busyState.bp_attr_event ≠ emptyAttrEvent ∧
    (_adv_ble_write_req busyState fixWr).1.bp_attr_event = emptyAttrEvent ∧
    (_adv_ble_write_req busyState fixWr).1.pv_error.pe_errno = -PE_BUSY ∧
    (_adv_ble_write_attribute busyState 1
        { fixWr with len := 3, data := [1, 2, 3] }).1 = -PE_INVALID_REQUEST ∧
    (_adv_ble_write_req busyState
        { fixWr with len := 3, data := [1, 2, 3] }).1.pv_error.pe_errno =
      -PE_INVALID_REQUEST ∧
    -PE_INVALID_REQUEST ≠ (-PE_BUSY : Int) :=
  ⟨by decide, rfl, rfl, rfl, rfl, by decide⟩

/-- Claim C4: when the writer callback defers completion of a write with a
non-zero payload, the payload bytes are copied into the transient storage
buffer before the write-attribute routine returns and the pending record
points at that buffer; completing the write later with a success code
replies with the offset and length of the original request. -/
theorem claim_C4_deferred_write_copy (st : AdvBleState) (ix : Nat) (wr : WriteEvt)
    (w : List Nat → Nat → Int)
    (hop : wr.op = WriteOp.writeReq)
    (hoff : wr.offset = 0)
    (hszv : (st.attr ix).pa_varsize = true → wr.len ≤ (st.attr ix).pa_size)
    (hszf : (st.attr ix).pa_varsize = false → wr.len = (st.attr ix).pa_size)
    (hw : (st.attr ix).pa_writer = some w)
    (hrc : w wr.data wr.len = PE_DEFERRED)
    (hd : st.bp_attr_event.ae_data = none)
    (ha : st.bp_attr_event.ae_attr = none)
    (hpos : 0 < wr.len)
    (hbound : wr.len ≤ TRANSIENT_SIZE) :
    (_adv_ble_write_attribute st ix wr).1 = PE_DEFERRED ∧
    (_adv_ble_write_attribute st ix wr).2.1.bp_attr_event =
      { ae_data := some DataPtr.transient, ae_length := wr.len,
        ae_offset := wr.offset, ae_attr := some ix } ∧
    (_adv_ble_write_attribute st ix wr).2.1.pv_transient =
      wr.data.take wr.len ++ st.pv_transient.drop wr.len ∧
    (_adv_ble_complete_write_req PE_NO_ERROR (_adv_ble_write_attribute st ix wr).2.1).2 =
      { gatt_status := BLE_GATT_STATUS_SUCCESS, update := true,
        offset := wr.offset, len := wr.len, p_data := some DataPtr.transient } := by
  have key : _adv_ble_write_attribute st ix wr =
      (PE_DEFERRED,
       { st with
         worker := { st.worker with we_last_time := st.worker.we_time },
         bp_attr_event :=
           { ae_data := some DataPtr.transient, ae_length := wr.len,
             ae_offset := wr.offset, ae_attr := some ix },
         pv_transient := wr.data.take wr.len ++ st.pv_transient.drop wr.len },
       true) := by
    unfold _adv_ble_write_attribute _adv_ble_write_attribute_run _adv_ble_worker_feed
    rcases hvs : (st.attr ix).pa_varsize with _ | _
    · simp [hop, hoff, hvs, (hszf hvs).symm, hw, hd, ha, hrc,
            Nat.not_lt.mpr hbound, hpos]
    · simp [hop, hoff, hvs, Nat.not_lt.mpr (hszv hvs), hw, hd, ha, hrc,
            Nat.not_lt.mpr hbound, hpos]
  rw [key]
  refine ⟨rfl, rfl, rfl, ?_⟩
  unfold _adv_ble_complete_write_req
  simp [PE_NO_ERROR]

/-- Witness for C4: a five-byte deferred write to the variable-size
attribute 2 of the base state. -/
theorem claim_C4_witness :
    (_adv_ble_write_attribute baseState 2
        { uuid := { uuid := ADV_CHAR_UUID_BASE + 2, type := BLE_UUID_TYPE_VENDOR_BEGIN },
          op := WriteOp.writeReq, offset := 0, len := 5, data := [1, 2, 3, 4, 5] }).1 =
      PE_DEFERRED ∧
    (_adv_ble_write_attribute baseState 2
        { uuid := { uuid := ADV_CHAR_UUID_BASE + 2, type := BLE_UUID_TYPE_VENDOR_BEGIN },
          op := WriteOp.writeReq, offset := 0, len := 5, data := [1, 2, 3, 4, 5] }).2.1.bp_attr_event =
      { ae_data := some DataPtr.transient, ae_length := 5, ae_offset := 0, ae_attr := some 2 } ∧
    (_adv_ble_write_attribute baseState 2
        { uuid := { uuid := ADV_CHAR_UUID_BASE + 2, type := BLE_UUID_TYPE_VENDOR_BEGIN },
          op := WriteOp.writeReq, offset := 0, len := 5, data := [1, 2, 3, 4, 5] }).2.1.pv_transient =
      [1, 2, 3, 4, 5].take 5 ++ (List.replicate 16 0).drop 5 ∧
    (_adv_ble_complete_write_req PE_NO_ERROR
        (_adv_ble_write_attribute baseState 2
          { uuid := { uuid := ADV_CHAR_UUID_BASE + 2, type := BLE_UUID_TYPE_VENDOR_BEGIN },
            op := WriteOp.writeReq, offset := 0, len := 5, data := [1, 2, 3, 4, 5] }).2.1).2 =
      { gatt_status := BLE_GATT_STATUS_SUCCESS, update := true,
        offset := 0, len := 5, p_data := some DataPtr.transient } :=
  claim_C4_deferred_write_copy baseState 2 _ (fun _ _ => PE_DEFERRED) rfl rfl
    (fun _ => by decide) (by decide) rfl rfl rfl rfl (by decide) (by decide)

/-- Claim C10: when the writer callback defers completion of a zero-length
write, the pending record keeps its attribute back-reference but its data
pointer is set to null before the write-attribute routine returns, and a
later completion, even with a success code, detects the nil event,
downgrades to Internal, records the error and replies with the
write-not-permitted status instead of success. -/
theorem claim_C10_zero_length_deferred (st : AdvBleState) (ix : Nat) (wr : WriteEvt)
    (w : List Nat → Nat → Int)
    (hop : wr.op = WriteOp.writeReq)
    (hoff : wr.offset = 0)
    (hlen : wr.len = 0)
    (hvs : (st.attr ix).pa_varsize = true)
    (hw : (st.attr ix).pa_writer = some w)
    (hrc : w wr.data wr.len = PE_DEFERRED)
    (hd : st.bp_attr_event.ae_data = none)
    (ha : st.bp_attr_event.ae_attr = none) :
    (_adv_ble_write_attribute st ix wr).1 = PE_DEFERRED ∧
    (_adv_ble_write_attribute st ix wr).2.1.bp_attr_event =
      { ae_data := none, ae_length := 0, ae_offset := wr.offset, ae_attr := some ix } ∧
    (_adv_ble_complete_write_req PE_NO_ERROR (_adv_ble_write_attribute st ix wr).2.1).2.gatt_status =
      BLE_GATT_STATUS_ATTERR_WRITE_NOT_PERMITTED ∧
    (_adv_ble_complete_write_req PE_NO_ERROR (_adv_ble_write_attribute st ix wr).2.1).2.update =
      false ∧
    (_adv_ble_complete_write_req PE_NO_ERROR (_adv_ble_write_attribute st ix wr).2.1).1.pv_error.pe_errno =
      -PE_INTERNAL := by
  have key : _adv_ble_write_attribute st ix wr =
      (PE_DEFERRED,
       { st with
         worker := { st.worker with we_last_time := st.worker.we_time },
         bp_attr_event :=
           { ae_data := none, ae_length := 0,
             ae_offset := wr.offset, ae_attr := some ix } },
       true) := by
    unfold _adv_ble_write_attribute _adv_ble_write_attribute_run _adv_ble_worker_feed
    rw [hlen] at hrc
    simp [hop, hoff, hvs, hlen, hw, hd, ha, hrc, TRANSIENT_SIZE]
  rw [key]
  refine ⟨rfl, rfl, ?_, ?_, ?_⟩ <;>
    simp [_adv_ble_complete_write_req, _adv_ble_set_error_on_attr,
          _adv_ble_attribute_char, PE_NO_ERROR, PE_INTERNAL, PE_ABORT, int8cast]
  decide

/-- Witness for C10: a zero-length deferred write to the variable-size
attribute 2 of the base state. -/
theorem claim_C10_witness :
    (_adv_ble_write_attribute baseState 2
        { uuid := { uuid := ADV_CHAR_UUID_BASE + 2, type := BLE_UUID_TYPE_VENDOR_BEGIN },
          op := WriteOp.writeReq, offset := 0, len := 0, data := [] }).1 = PE_DEFERRED ∧
    (_adv_ble_write_attribute baseState 2
        { uuid := { uuid := ADV_CHAR_UUID_BASE + 2, type := BLE_UUID_TYPE_VENDOR_BEGIN },
          op := WriteOp.writeReq, offset := 0, len := 0, data := [] }).2.1.bp_attr_event =
      { ae_data := none, ae_length := 0, ae_offset := 0, ae_attr := some 2 } ∧
    (_adv_ble_complete_write_req PE_NO_ERROR
        (_adv_ble_write_attribute baseState 2
          { uuid := { uuid := ADV_CHAR_UUID_BASE + 2, type := BLE_UUID_TYPE_VENDOR_BEGIN },
            op := WriteOp.writeReq, offset := 0, len := 0, data := [] }).2.1).2.gatt_status =
      BLE_GATT_STATUS_ATTERR_WRITE_NOT_PERMITTED ∧
    (_adv_ble_complete_write_req PE_NO_ERROR
        (_adv_ble_write_attribute baseState 2
          { uuid := { uuid := ADV_CHAR_UUID_BASE + 2, type := BLE_UUID_TYPE_VENDOR_BEGIN },
            op := WriteOp.writeReq, offset := 0, len := 0, data := [] }).2.1).2.update = false ∧
    (_adv_ble_complete_write_req PE_NO_ERROR
        (_adv_ble_write_attribute baseState 2
          { uuid := { uuid := ADV_CHAR_UUID_BASE + 2, type := BLE_UUID_TYPE_VENDOR_BEGIN },
            op := WriteOp.writeReq, offset := 0, len := 0, data := [] }).2.1).1.pv_error.pe_errno =
      -PE_INTERNAL :=
  claim_C10_zero_length_deferred baseState 2 _ (fun _ _ => PE_DEFERRED)
    rfl rfl rfl (by decide) rfl rfl rfl rfl

/-- Claim C2 (amended): a write request that passes operation, offset,
length and writer-presence validation while the pending-operation record is
occupied is rejected by the write-attribute routine with Busy, leaving the
whole state (in particular the record) untouched and never invoking the
writer; the completion call that then sends the rejection to the peer,
however, clears the occupied record; and since the length validation
precedes the busy check, a plain write of invalid length to the same
attribute is rejected with InvalidRequest (fixed size) or Overflow
(variable size) rather than Busy even while the record is occupied, again
leaving the state untouched at that point. -/
theorem claim_C2_busy_rejection (st : AdvBleState) (ix : Nat) (wr : WriteEvt)
    (w : List Nat → Nat → Int)
    (hop : wr.op = WriteOp.writeReq)
    (hoff : wr.offset = 0)
    (hszv : (st.attr ix).pa_varsize = true → wr.len ≤ (st.attr ix).pa_size)
    (hszf : (st.attr ix).pa_varsize = false → wr.len = (st.attr ix).pa_size)
    (hw : (st.attr ix).pa_writer = some w)
    (hbusy : st.bp_attr_event.ae_data.isSome = true ∨
             st.bp_attr_event.ae_attr.isSome = true)
    (hu : wr.uuid = { uuid := ADV_CHAR_UUID_BASE + ix,
                      type := BLE_UUID_TYPE_VENDOR_BEGIN })
    (hix : ix < st.bp_attributes.length)
    (hsleep : st.bp_entering_sleep = false) :
    _adv_ble_write_attribute st ix wr = (-PE_BUSY, st, false) ∧
    (_adv_ble_write_req st wr).1.bp_attr_event = emptyAttrEvent ∧
    (∀ wr2 : WriteEvt, wr2.op = WriteOp.writeReq → wr2.offset = 0 →
      ((st.attr ix).pa_varsize = false → wr2.len ≠ (st.attr ix).pa_size →
        _adv_ble_write_attribute st ix wr2 = (-PE_INVALID_REQUEST, st, false)) ∧
      ((st.attr ix).pa_varsize = true → wr2.len > (st.attr ix).pa_size →
        _adv_ble_write_attribute st ix wr2 = (-PE_OVERFLOW, st, false))) := by
  have key : _adv_ble_write_attribute st ix wr = (-PE_BUSY, st, false) := by
    unfold _adv_ble_write_attribute _adv_ble_write_attribute_run
    rcases hvs : (st.attr ix).pa_varsize with _ | _
    · simp [hop, hoff, hvs, (hszf hvs).symm, hw, hbusy]
    · simp [hop, hoff, hvs, Nat.not_lt.mpr (hszv hvs), hw, hbusy]
  have hnotlt : ¬(ADV_CHAR_UUID_BASE + ix < ADV_CHAR_UUID_BASE) := by omega
  refine ⟨key, ?_, ?_⟩
  · unfold _adv_ble_write_req _adv_ble_retrieve_attribute
    rw [hop]
    simp only [hu, hnotlt, Nat.add_sub_cancel_left, Nat.not_le.mpr hix, hsleep,
               if_false, if_neg, ite_false, key]
    simp [hsleep, key, PE_BUSY, PE_DEFERRED, write_req_finish_state,
          _adv_ble_complete_write_req]
  · intro wr2 hop2 hoff2
    refine ⟨fun hvs hlen => ?_, fun hvs hlen => ?_⟩ <;>
      simp [_adv_ble_write_attribute, hop2, hoff2, hvs, hlen]

/-- Witness for C2 (amended): the two-byte write to attribute 1 arriving
while the deferred operation on attribute 2 is still pending is rejected
with Busy and the record is then cleared; a three-byte write to the same
size-2 attribute in the same busy state is rejected with InvalidRequest. -/
theorem claim_C2_witness :
    _adv_ble_write_attribute busyState 1 fixWr = (-PE_BUSY, busyState, false) ∧
    (_adv_ble_write_req busyState fixWr).1.bp_attr_event = emptyAttrEvent ∧
    _adv_ble_write_attribute busyState 1 { fixWr with len := 3, data := [1, 2, 3] } =
      (-PE_INVALID_REQUEST, busyState, false) := by
  have h := claim_C2_busy_rejection busyState 1 fixWr (fun _ _ => PE_NO_ERROR) rfl rfl
    (by decide) (fun _ => by decide) rfl (by decide) rfl (by decide) rfl
  exact ⟨h.1, h.2.1, (h.2.2 { fixWr with len := 3, data := [1, 2, 3] } rfl rfl).1
    (by decide) (by decide)⟩

/-- Claim C8: a worker timer tick that fires while workers are disabled,
the connection handle is set and the engine time (as advanced by this tick)
minus the last-activity timestamp exceeds the stall threshold requests a
disconnect of that handle; any tick that fires once the connection handle
has been cleared requests no disconnect, whatever the timing condition. -/
theorem claim_C8_stall_watchdog :
    (∀ st : AdvBleState,
      st.worker.we_enable = false →
      st.bp_conn_handle ≠ BLE_CONN_HANDLE_INVALID →
      usub32 ((st.worker.we_time + ADV_BLE_WORKER_PACE_S) % UINT_MOD)
          st.worker.we_last_time > ADV_BLE_STALL_DELAY_S →
      (_adv_ble_worker_timer_cb st).2 = [Action.disconnectReq st.bp_conn_handle]) ∧
    (∀ st : AdvBleState,
      st.bp_conn_handle = BLE_CONN_HANDLE_INVALID →
      (_adv_ble_worker_timer_cb st).2 = []) := by
  constructor
  · intro st hen hconn htick
    unfold _adv_ble_worker_timer_cb _adv_ble_disconnect
    simp [hen, hconn, htick]
  · intro st hconn
    unfold _adv_ble_worker_timer_cb _adv_ble_disconnect
    dsimp only
    simp only [hconn]
    repeat' split
    all_goals simp_all

/-- Witness for C8: a tick 205 seconds of engine time after the last
activity with the connection handle still set requests the disconnect; the
same engine without a connection handle requests nothing. -/
theorem claim_C8_witness :
    (_adv_ble_worker_timer_cb baseState).2 = [Action.disconnectReq 5] ∧
    (_adv_ble_worker_timer_cb idleState).2 = [] :=
  ⟨claim_C8_stall_watchdog.1 baseState rfl (by decide) (by decide),
   claim_C8_stall_watchdog.2 idleState rfl⟩

/-- Claim C9: code behaviour at the failing input.  A successful write
while the reboot flag is raised emits the success reply to the peer first
and the disconnect request second, and never a system reset; but the
subsequent disconnection event handling also emits nothing at all — in
particular no system reset — even though the reboot flag is still raised,
so no reboot is ever carried out from the disconnect-event handler. -/
theorem claim_C9_reboot_write_behavior :
    (_adv_ble_write_req rebootState fixWr).2 =
      [Action.writeReply { gatt_status := BLE_GATT_STATUS_SUCCESS, update := true,
                           offset := 0, len := 2, p_data := some (DataPtr.orig [1, 2]) },
       Action.disconnectReq 5] ∧
    (_adv_ble_write_req rebootState fixWr).1.bp_reboot = true ∧
    (_adv_ble_evt_disconnected (_adv_ble_write_req rebootState fixWr).1).2 = [] :=
  ⟨rfl, rfl, rfl⟩

end AdvBle
